import Mathlib

/-! # MCUboot public bootutil interface: shallow embedding

This file embeds the public contract of the MCUboot trailer-based swap
state machine (`boot/bootutil/include/bootutil/bootutil_public.h`) in
Lean 4 and settles the stated properties against it.

The header provides the constants, the `swap_info` packing macros and the
`struct boot_swap_state` layout directly; those are embedded verbatim
below.  The bodies of the declared functions (`boot_swap_type_multi`,
`boot_read_swap_state`, the executor and the request API) live in a
translation unit that is not among the sources, so they are modelled from
the specification, as marked by their doc comments.
-/

namespace Mcuboot

/-! ## Swap-type constants (`bootutil_public.h` lines 53-75) -/

/-- Attempt to boot the contents of the primary slot. -/
def BOOT_SWAP_TYPE_NONE : Nat := 1

/-- Swap to the secondary slot; absent a confirm, revert on next boot. -/
def BOOT_SWAP_TYPE_TEST : Nat := 2

/-- Swap to the secondary slot and permanently switch to it. -/
def BOOT_SWAP_TYPE_PERM : Nat := 3

/-- Swap back to the alternate slot. -/
def BOOT_SWAP_TYPE_REVERT : Nat := 4

/-- Swap failed because the image to be run is not valid. -/
def BOOT_SWAP_TYPE_FAIL : Nat := 5

/-- Swapping encountered an unrecoverable error. -/
def BOOT_SWAP_TYPE_PANIC : Nat := 0xff

/-! ## Magic and flag classification constants (lines 93-105) -/

def BOOT_MAGIC_GOOD : Nat := 1

def BOOT_MAGIC_BAD : Nat := 2

def BOOT_MAGIC_UNSET : Nat := 3

def BOOT_MAGIC_ANY : Nat := 4

def BOOT_MAGIC_NOTGOOD : Nat := 5

def BOOT_FLAG_SET : Nat := 1

def BOOT_FLAG_BAD : Nat := 2

def BOOT_FLAG_UNSET : Nat := 3

def BOOT_FLAG_ANY : Nat := 4

/-! ## Error-kind constants (lines 107-115), as the header defines them:
C `int` literals, hence `Int` here, with the values written in the source. -/

def BOOT_EFLASH : Int := 1

def BOOT_EFILE : Int := 2

def BOOT_EBADIMAGE : Int := 3

def BOOT_EBADVECT : Int := 4

def BOOT_EBADSTATUS : Int := 5

def BOOT_ENOMEM : Int := 6

def BOOT_EBADARGS : Int := 7

def BOOT_EBADVERSION : Int := 8

def BOOT_EFLASH_SEC : Int := 9

/-! ## `swap_info` packing macros (lines 122-131) -/

/-- `BOOT_GET_SWAP_TYPE(swap_info)` is `(swap_info) & 0x0F`. -/
def BOOT_GET_SWAP_TYPE (swap_info : Nat) : Nat := swap_info &&& 0x0F

/-- `BOOT_GET_IMAGE_NUM(swap_info)` is `(swap_info) >> 4`. -/
def BOOT_GET_IMAGE_NUM (swap_info : Nat) : Nat := swap_info >>> 4

/-- The two `assert`s `BOOT_SET_SWAP_INFO` executes before its assignment:
`assert((image) < 0xF)` and `assert((type) < 0xF)`. -/
def BOOT_SET_SWAP_INFO_asserts (image ty : Nat) : Prop := image < 0xF ∧ ty < 0xF

instance (i t : Nat) : Decidable (BOOT_SET_SWAP_INFO_asserts i t) := by
  unfold BOOT_SET_SWAP_INFO_asserts
  exact inferInstance

/-- The value `BOOT_SET_SWAP_INFO` assigns: `(image) << 4 | (type)`. -/
def BOOT_SET_SWAP_INFO (image ty : Nat) : Nat := (image <<< 4) ||| ty

/-! ## Trailer state, `struct boot_swap_state` (lines 143-149) -/

/-- Decoded trailer state.  Each field carries one of the classification
constants above (`magic` a `BOOT_MAGIC_[...]` value, `swap_type` a
`BOOT_SWAP_TYPE_[...]` value, `copy_done` and `image_ok` `BOOT_FLAG_[...]`
values), except `image_num`, which is the owning image index. -/
structure boot_swap_state where
  magic : Nat
  swap_type : Nat
  copy_done : Nat
  image_ok : Nat
  image_num : Nat
  deriving DecidableEq, Repr

/-! ## Trailer reader -/

/-- Modelled from the spec: the concrete 16 bytes of the magic sentinel are
fixed in the private implementation, which is not among the sources; the
spec (section 3) only requires a fixed 16-byte pattern distinct from
all-erased memory.  Any such pattern serves. -/
def BOOT_IMG_MAGIC_BYTES : List Nat := (List.range 16).map (fun k => k + 1)

/-- Raw bytes of one trailer record as laid out in flash (spec section 6):
the 16-byte magic sentinel, then the `swap_info`, `copy_done` and
`image_ok` bytes. -/
structure raw_trailer where
  magic : List Nat
  swap_info : Nat
  copy_done : Nat
  image_ok : Nat
  deriving DecidableEq, Repr

/-- Modelled from the spec: magic classification done by the trailer reader
(`boot_read_swap_state`, body not among the sources).  The sentinel bytes
decode to Good, all-erased (`0xff`) bytes to Unset, anything else to Bad
(spec section 3: Good / Bad / Unset; never an error). -/
def boot_magic_decode (m : List Nat) : Nat :=
  if m = BOOT_IMG_MAGIC_BYTES then BOOT_MAGIC_GOOD
  else if m.all (fun b => b = 0xff) then BOOT_MAGIC_UNSET
  else BOOT_MAGIC_BAD

/-- Modelled from the spec: flag classification done by the trailer reader.
`BOOT_FLAG_SET` (one, the value written to flash) decodes to Set, the
erased byte `0xff` to Unset, anything else to Bad; never an error
(spec sections 3 and 4.1). -/
def boot_flag_decode (b : Nat) : Nat :=
  if b = BOOT_FLAG_SET then BOOT_FLAG_SET
  else if b = 0xff then BOOT_FLAG_UNSET
  else BOOT_FLAG_BAD

/-- Modelled from the spec: `boot_read_swap_state` (declared at lines
264-266 of the header; its body is not among the sources).  It fills a
`boot_swap_state` from the raw trailer bytes: the magic is classified, the
`swap_info` byte is split by the nibble macros, and the flag bytes are
classified.  It is a total function: malformed-but-present bytes decode to
Bad rather than failing (spec section 4.1, "never raises on
malformed-but-present bytes"). -/
def boot_read_swap_state (t : raw_trailer) : boot_swap_state :=
  { magic := boot_magic_decode t.magic
    swap_type := BOOT_GET_SWAP_TYPE t.swap_info
    copy_done := boot_flag_decode t.copy_done
    image_ok := boot_flag_decode t.image_ok
    image_num := BOOT_GET_IMAGE_NUM t.swap_info }

/-! ## Swap Decision Engine -/

/-- The six defined `BOOT_SWAP_TYPE_[...]` constants (header lines 53-75). -/
def boot_swap_type_defined (t : Nat) : Prop :=
  t = BOOT_SWAP_TYPE_NONE ∨ t = BOOT_SWAP_TYPE_TEST ∨ t = BOOT_SWAP_TYPE_PERM ∨
  t = BOOT_SWAP_TYPE_REVERT ∨ t = BOOT_SWAP_TYPE_FAIL ∨ t = BOOT_SWAP_TYPE_PANIC

instance (t : Nat) : Decidable (boot_swap_type_defined t) := by
  unfold boot_swap_type_defined
  exact inferInstance

/-- Modelled from the spec: the metadata-inconsistency conditions of rule 5
of the Decision Engine table (spec section 4.2) on a single trailer: a
Good magic together with an undefined `swap_type` value (spec section 8,
malformed-field containment), or `copy_done` Set on a trailer whose magic
is Bad (the example rule 5 itself gives). -/
def boot_swap_state_inconsistent (st : boot_swap_state) : Prop :=
  (st.magic = BOOT_MAGIC_GOOD ∧ ¬ boot_swap_type_defined st.swap_type) ∨
  (st.magic = BOOT_MAGIC_BAD ∧ st.copy_done = BOOT_FLAG_SET)

instance (st : boot_swap_state) : Decidable (boot_swap_state_inconsistent st) := by
  unfold boot_swap_state_inconsistent
  exact inferInstance

/-- Modelled from the spec: the Swap Decision Engine, the pure function at
the heart of `boot_swap_type_multi` (declared at line 159 of the header;
its body is not among the sources).  Spec section 4.2's decision table,
rendered as follows.  The metadata-inconsistency rule (rule 5, Panic) is
checked first: section 7 classifies such trailers as unmappable to any
transition, section 8 requires an undefined `swap_type` under Good magic
to resolve to Panic, and section 9 recommends inconsistency be checked
before the other conditions.  Then rule 2 (a pending request on the
secondary trailer, with the swap not yet performed), then rule 3 (revert
of an unconfirmed test boot), then rule 4 (the confirmed steady state) and
rule 1 (no secondary request), both of which yield None.  Rule 6 (the
external image-validator check) is outside this interface: the validator
is an excluded collaborator (spec section 1). -/
def boot_swap_decision (primary secondary : boot_swap_state) : Nat :=
  if boot_swap_state_inconsistent primary ∨ boot_swap_state_inconsistent secondary then
    BOOT_SWAP_TYPE_PANIC
  else if secondary.magic = BOOT_MAGIC_GOOD ∧
          (secondary.swap_type = BOOT_SWAP_TYPE_TEST ∨
           secondary.swap_type = BOOT_SWAP_TYPE_PERM) ∧
          primary.copy_done ≠ BOOT_FLAG_SET then
    secondary.swap_type
  else if primary.magic = BOOT_MAGIC_GOOD ∧ primary.swap_type = BOOT_SWAP_TYPE_TEST ∧
          primary.image_ok ≠ BOOT_FLAG_SET then
    BOOT_SWAP_TYPE_REVERT
  else if primary.magic = BOOT_MAGIC_GOOD ∧
          (primary.swap_type = BOOT_SWAP_TYPE_TEST ∨
           primary.swap_type = BOOT_SWAP_TYPE_PERM) ∧
          primary.copy_done = BOOT_FLAG_SET ∧ primary.image_ok = BOOT_FLAG_SET then
    BOOT_SWAP_TYPE_NONE
  else
    BOOT_SWAP_TYPE_NONE

/-- The flash state the decision functions read: for each image pair index,
the decoded primary and secondary trailers. -/
def trailer_map : Type := Nat → boot_swap_state × boot_swap_state

/-- Modelled from the spec: `boot_swap_type_multi` (header lines 151-159;
body not among the sources) determines the action mcuboot will take on an
image pair, by applying the Decision Engine to that pair's trailers. -/
def boot_swap_type_multi (flash : trailer_map) (image_index : Nat) : Nat :=
  boot_swap_decision (flash image_index).1 (flash image_index).2

/-- Modelled from the spec: `boot_swap_type` (header lines 161-169; body not
among the sources) determines the action mcuboot will take; per its
contract it works the same as a `boot_swap_type_multi(0)` call, so it is
the Decision Engine applied to the trailers of image pair zero. -/
def boot_swap_type (flash : trailer_map) : Nat :=
  boot_swap_decision (flash 0).1 (flash 0).2

/-! ## Swap Executor -/

/-- The flash state of one image pair as the Swap Executor sees it: the
two decoded trailers, the content-bearing sectors of each slot, and the
persisted progress marker (the index of the next sector to process,
re-read from the trailer region on resumption). -/
structure swap_flash_state where
  primary_trailer : boot_swap_state
  secondary_trailer : boot_swap_state
  primary_sectors : List Nat
  secondary_sectors : List Nat
  progress : Nat
  deriving DecidableEq, Repr

/-- Modelled from the spec: the Swap Executor (spec section 4.3; no part of
its implementation is among the sources).  Completion is detected via
`copy_done = Set` on the primary trailer: in that case the call is a
no-op that touches no flash and returns success (spec section 8,
idempotence).  Otherwise the exchange of slot contents resumes at the
persisted progress marker rather than at sector zero: sectors below the
marker are already exchanged and keep their current contents, sectors
from the marker on are exchanged now.  On completion the executor sets
`copy_done = Set` on the primary trailer (the commit point, spec section
4.3) and erases the secondary trailer's magic (spec section 8, concrete
scenario). -/
def swap_executor_run (st : swap_flash_state) : Int × swap_flash_state :=
  if st.primary_trailer.copy_done = BOOT_FLAG_SET then
    (0, st)
  else
    let k := st.progress
    (0, { st with
          primary_sectors :=
            st.primary_sectors.take k ++ st.secondary_sectors.drop k
          secondary_sectors :=
            st.secondary_sectors.take k ++ st.primary_sectors.drop k
          primary_trailer := { st.primary_trailer with copy_done := BOOT_FLAG_SET }
          secondary_trailer := { st.secondary_trailer with magic := BOOT_MAGIC_UNSET }
          progress := st.primary_sectors.length })

/-! ## Pending-Request API -/

/-- Modelled from the spec: `boot_set_confirmed_multi` (header lines
202-211; body not among the sources), acting on the primary trailer of
the given image pair.  It writes `image_ok = Set`; calling it when
`image_ok` is already Set is a successful no-op (spec section 4.4), and a
trailer whose `image_ok` flag decodes to Bad is surfaced as an explicit
error rather than silently rewritten (spec section 4.4, failure modes). -/
def boot_set_confirmed_multi (primary : boot_swap_state) : Int × boot_swap_state :=
  if primary.image_ok = BOOT_FLAG_SET then
    (0, primary)
  else if primary.image_ok = BOOT_FLAG_BAD then
    (-BOOT_EBADSTATUS, primary)
  else
    (0, { primary with image_ok := BOOT_FLAG_SET })

/-- Modelled from the spec: `boot_set_next` (header lines 268-293; body not
among the sources), acting on the trailer of the flash area it is given.
When `active` is true the `confirm` argument is considered true regardless
of the passed value (header contract, lines 274-275; spec section 4.4),
and the call confirms the running image by writing `image_ok = Set`.
When `active` is false the slot is marked pending: its trailer receives a
Good magic and a swap request, Permanent when confirmed and Test
otherwise. -/
def boot_set_next (t : boot_swap_state) (active confirm : Bool) :
    Int × boot_swap_state :=
  let confirm := active || confirm
  if active then
    if t.image_ok = BOOT_FLAG_SET then
      (0, t)
    else if t.image_ok = BOOT_FLAG_BAD then
      (-BOOT_EBADSTATUS, t)
    else
      (0, { t with image_ok := BOOT_FLAG_SET })
  else
    (0, { t with
          magic := BOOT_MAGIC_GOOD
          swap_type :=
            if confirm then BOOT_SWAP_TYPE_PERM else BOOT_SWAP_TYPE_TEST })

/-- The nine `BOOT_E[...]` status codes of the header (lines 107-115), in
source order. -/
def boot_error_codes : List Int :=
  [BOOT_EFLASH, BOOT_EFILE, BOOT_EBADIMAGE, BOOT_EBADVECT, BOOT_EBADSTATUS,
   BOOT_ENOMEM, BOOT_EBADARGS, BOOT_EBADVERSION, BOOT_EFLASH_SEC]

/-! ## Theorems -/

/-- Both nibble extractions applied to a packed `swap_info` byte, for any
image index and swap type accepted by the `BOOT_SET_SWAP_INFO` asserts. -/
lemma get_set_swap_info (i t : Nat) (hi : i < 15) (ht : t < 15) :
    BOOT_GET_SWAP_TYPE (BOOT_SET_SWAP_INFO i t) = t ∧
    BOOT_GET_IMAGE_NUM (BOOT_SET_SWAP_INFO i t) = i := by
  unfold BOOT_GET_SWAP_TYPE BOOT_GET_IMAGE_NUM BOOT_SET_SWAP_INFO
  interval_cases i <;> interval_cases t <;> exact ⟨rfl, rfl⟩

/-- Claim C3: for every image index `i < 15` and swap type `t < 15`, packing
with `BOOT_SET_SWAP_INFO` and extracting with `BOOT_GET_SWAP_TYPE` and
`BOOT_GET_IMAGE_NUM` is a round trip: the low nibble gives back `t` and
the high nibble gives back `i`. -/
theorem swap_info_roundtrip (i t : Nat) (hi : i < 15) (ht : t < 15) :
    BOOT_GET_SWAP_TYPE (BOOT_SET_SWAP_INFO i t) = t ∧
    BOOT_GET_IMAGE_NUM (BOOT_SET_SWAP_INFO i t) = i :=
  get_set_swap_info i t hi ht

/-- Witness for claim C3 at image index 7, swap type 2. -/
theorem swap_info_roundtrip_witness :
    BOOT_GET_SWAP_TYPE (BOOT_SET_SWAP_INFO 7 2) = 2 ∧
    BOOT_GET_IMAGE_NUM (BOOT_SET_SWAP_INFO 7 2) = 7 :=
  swap_info_roundtrip 7 2 (by decide) (by decide)

/-- Counterexample to claim C4 as stated: `BOOT_SWAP_TYPE_PANIC` is `0xff`,
so it fails the `(type) < 0xF` assert of `BOOT_SET_SWAP_INFO`, and the low
nibble of the byte the macro would build does not recover it. -/
theorem panic_exceeds_nibble :
    ¬ BOOT_SET_SWAP_INFO_asserts 0 BOOT_SWAP_TYPE_PANIC ∧
    BOOT_GET_SWAP_TYPE (BOOT_SET_SWAP_INFO 0 BOOT_SWAP_TYPE_PANIC) ≠
      BOOT_SWAP_TYPE_PANIC := by
  decide

/-- Claim C4 (amended): each of the five swap-type constants other than
`BOOT_SWAP_TYPE_PANIC` fits in the low nibble of `swap_info`: for each
such constant `t` and every image index `i < 15` the asserts of
`BOOT_SET_SWAP_INFO` hold and `BOOT_GET_SWAP_TYPE` recovers `t` from the
packed byte.  `BOOT_SWAP_TYPE_PANIC` itself is `0xff` and fails the
`(type) < 0xF` assert. -/
theorem swap_type_constants_fit_nibble (t i : Nat)
    (hdef : t = BOOT_SWAP_TYPE_NONE ∨ t = BOOT_SWAP_TYPE_TEST ∨
            t = BOOT_SWAP_TYPE_PERM ∨ t = BOOT_SWAP_TYPE_REVERT ∨
            t = BOOT_SWAP_TYPE_FAIL)
    (hi : i < 15) :
    BOOT_SET_SWAP_INFO_asserts i t ∧
    BOOT_GET_SWAP_TYPE (BOOT_SET_SWAP_INFO i t) = t := by
  have ht : t < 15 := by
    rcases hdef with h | h | h | h | h <;> rw [h] <;> decide
  exact ⟨⟨hi, ht⟩, (get_set_swap_info i t hi ht).1⟩

/-- Witness for (amended) claim C4 at `BOOT_SWAP_TYPE_TEST`, image index 3. -/
theorem swap_type_constants_fit_nibble_witness :
    BOOT_SET_SWAP_INFO_asserts 3 BOOT_SWAP_TYPE_TEST ∧
    BOOT_GET_SWAP_TYPE (BOOT_SET_SWAP_INFO 3 BOOT_SWAP_TYPE_TEST) =
      BOOT_SWAP_TYPE_TEST :=
  swap_type_constants_fit_nibble BOOT_SWAP_TYPE_TEST 3
    (Or.inr (Or.inl rfl)) (by decide)

/-- Counterexample to claim C5 as stated: the header defines the error-kind
constants as positive integers (`BOOT_EFLASH` is `1`), so the constants
themselves are not negative. -/
theorem eflash_not_negative :
    ¬ (BOOT_EFLASH < 0) ∧ BOOT_EFLASH = 1 := by
  decide

/-- Claim C5 (amended): the nine error-kind status codes form a closed set
of pairwise-distinct positive integers, each distinct from the success
code 0; failing operations return them negated, which is where the
negative errno values of the contract come from. -/
theorem error_codes_closed_set :
    boot_error_codes.Pairwise (fun a b => a ≠ b) ∧
    ∀ e ∈ boot_error_codes, 0 < e ∧ e ≠ 0 := by
  decide

/-- Claim C10: the `(image) < 0xF` assert of `BOOT_SET_SWAP_INFO` rejects
image index 15 for every swap type, even though 15 fits in the 4-bit high
nibble; and every pack accepted by the asserts yields an image number in
the range 0 to 14. -/
theorem set_swap_info_image_range :
    (∀ t, ¬ BOOT_SET_SWAP_INFO_asserts 15 t) ∧ 15 < 2 ^ 4 ∧
    ∀ i t, BOOT_SET_SWAP_INFO_asserts i t →
      BOOT_GET_IMAGE_NUM (BOOT_SET_SWAP_INFO i t) ≤ 14 := by
  refine ⟨?_, by decide, ?_⟩
  · intro t h
    unfold BOOT_SET_SWAP_INFO_asserts at h
    exact absurd h.1 (by decide)
  · intro i t h
    unfold BOOT_SET_SWAP_INFO_asserts at h
    have := (get_set_swap_info i t h.1 h.2).2
    omega

/-- Witness for claim C10: the assert rejects image index 15 at swap type
0, and the pack of image index 3 with swap type 2 stays in range. -/
theorem set_swap_info_image_range_witness :
    ¬ BOOT_SET_SWAP_INFO_asserts 15 0 ∧
    BOOT_GET_IMAGE_NUM (BOOT_SET_SWAP_INFO 3 2) ≤ 14 :=
  ⟨set_swap_info_image_range.1 0,
   set_swap_info_image_range.2.2 3 2 (by decide)⟩

/-- Claim C2: for every flash state whose primary trailer already shows
`copy_done = Set`, a further Swap Executor invocation performs zero flash
writes — the entire flash state is returned unchanged — and the call
returns success. -/
theorem executor_second_call_noop (st : swap_flash_state)
    (h : st.primary_trailer.copy_done = BOOT_FLAG_SET) :
    swap_executor_run st = (0, st) := by
  unfold swap_executor_run
  rw [if_pos h]

/-- Witness for claim C2: a completed swap (primary trailer
{Good, Permanent, copy_done Set, image_ok Set}) is left untouched. -/
theorem executor_second_call_noop_witness :
    swap_executor_run
      ⟨⟨1, 3, 1, 1, 0⟩, ⟨3, 3, 3, 3, 0⟩, [10, 11], [20, 21], 2⟩ =
      (0, ⟨⟨1, 3, 1, 1, 0⟩, ⟨3, 3, 3, 3, 0⟩, [10, 11], [20, 21], 2⟩) :=
  executor_second_call_noop _ rfl

/-- Claim C6: `boot_set_confirmed_multi` is idempotent: on a primary
trailer whose `image_ok` flag is already Set it returns success and
leaves the trailer unchanged. -/
theorem set_confirmed_idempotent (t : boot_swap_state)
    (h : t.image_ok = BOOT_FLAG_SET) :
    boot_set_confirmed_multi t = (0, t) := by
  unfold boot_set_confirmed_multi
  rw [if_pos h]

/-- Witness for claim C6 on a confirmed steady-state trailer. -/
theorem set_confirmed_idempotent_witness :
    boot_set_confirmed_multi ⟨1, 3, 1, 1, 0⟩ = (0, ⟨1, 3, 1, 1, 0⟩) :=
  set_confirmed_idempotent _ rfl

/-- Claim C7: with `active = true`, `boot_set_next` treats the `confirm`
argument as true regardless of the value passed: for every trailer and
every Boolean `c`, the call with `confirm = c` has exactly the result and
effect of the call with `confirm = true`. -/
theorem set_next_active_forces_confirm (t : boot_swap_state) (c : Bool) :
    boot_set_next t true c = boot_set_next t true true := by
  cases c <;> rfl

/-- Claim C9: `boot_swap_type` returns exactly what `boot_swap_type_multi`
returns for image pair index 0, on every flash state. -/
theorem swap_type_eq_multi_zero (flash : trailer_map) :
    boot_swap_type flash = boot_swap_type_multi flash 0 := rfl

/-- A primary trailer in the unconfirmed-test state makes the Decision
Engine revert, unless the secondary trailer is inconsistent (rule 5,
Panic, preempts) or carries a pending Test/Permanent request while the
primary's `copy_done` is not Set (rule 2 preempts). -/
lemma decision_revert (p s : boot_swap_state)
    (hpm : p.magic = BOOT_MAGIC_GOOD) (hpt : p.swap_type = BOOT_SWAP_TYPE_TEST)
    (hpo : p.image_ok ≠ BOOT_FLAG_SET)
    (hsi : ¬ boot_swap_state_inconsistent s)
    (hsr : ¬ (s.magic = BOOT_MAGIC_GOOD ∧
              (s.swap_type = BOOT_SWAP_TYPE_TEST ∨
               s.swap_type = BOOT_SWAP_TYPE_PERM) ∧
              p.copy_done ≠ BOOT_FLAG_SET)) :
    boot_swap_decision p s = BOOT_SWAP_TYPE_REVERT := by
  have hip : ¬ boot_swap_state_inconsistent p := by
    intro h
    unfold boot_swap_state_inconsistent at h
    rcases h with ⟨_, h2⟩ | ⟨h1, _⟩
    · exact h2 (Or.inr (Or.inl hpt))
    · rw [hpm] at h1
      exact absurd h1 (by decide)
  unfold boot_swap_decision
  rw [if_neg (by rintro (h | h); exacts [hip h, hsi h])]
  rw [if_neg hsr]
  rw [if_pos ⟨hpm, hpt, hpo⟩]

/-- A primary trailer in the confirmed steady state (`copy_done` and
`image_ok` both Set) makes the Decision Engine take no action, for every
secondary trailer that is not inconsistent: with `copy_done` Set on the
primary, rule 2 cannot fire regardless of the secondary. -/
lemma decision_none_steady (p s : boot_swap_state)
    (hpm : p.magic = BOOT_MAGIC_GOOD) (hpt : p.swap_type = BOOT_SWAP_TYPE_TEST)
    (hpc : p.copy_done = BOOT_FLAG_SET) (hpo : p.image_ok = BOOT_FLAG_SET)
    (hsi : ¬ boot_swap_state_inconsistent s) :
    boot_swap_decision p s = BOOT_SWAP_TYPE_NONE := by
  have hip : ¬ boot_swap_state_inconsistent p := by
    intro h
    unfold boot_swap_state_inconsistent at h
    rcases h with ⟨_, h2⟩ | ⟨h1, _⟩
    · exact h2 (Or.inr (Or.inl hpt))
    · rw [hpm] at h1
      exact absurd h1 (by decide)
  unfold boot_swap_decision
  rw [if_neg (by rintro (h | h); exacts [hip h, hsi h])]
  rw [if_neg (by rintro ⟨_, _, h3⟩; exact h3 hpc)]
  rw [if_neg (by rintro ⟨_, _, h3⟩; exact h3 hpo)]
  rw [if_pos ⟨hpm, Or.inl hpt, hpc, hpo⟩]

/-- Counterexample to claim C1 as stated: a primary trailer decoding to
{magic Good, swap_type Test, image_ok Unset} does not force Revert for
every image pair — a secondary trailer that itself requests a test swap
takes precedence (spec section 4.2, rule 2 before rule 3), and the
decision is Test. -/
theorem revert_preempted_by_pending_request :
    (⟨1, 2, 3, 3, 0⟩ : boot_swap_state).magic = BOOT_MAGIC_GOOD ∧
    (⟨1, 2, 3, 3, 0⟩ : boot_swap_state).swap_type = BOOT_SWAP_TYPE_TEST ∧
    (⟨1, 2, 3, 3, 0⟩ : boot_swap_state).image_ok ≠ BOOT_FLAG_SET ∧
    boot_swap_type_multi
      (fun _ => (⟨1, 2, 3, 3, 0⟩, ⟨1, 2, 3, 3, 0⟩)) 0 = BOOT_SWAP_TYPE_TEST ∧
    BOOT_SWAP_TYPE_TEST ≠ BOOT_SWAP_TYPE_REVERT := by
  decide

/-- Claim C1 (amended): for every image pair whose primary trailer decodes
to magic Good, swap_type Test and image_ok not Set, `boot_swap_type_multi`
returns `BOOT_SWAP_TYPE_REVERT`, unless the secondary trailer is
inconsistent (the Panic rule preempts) or carries a pending
Test/Permanent request under Good magic while the primary's `copy_done`
is not Set (rule 2 preempts); and after the revert completes and the
image is confirmed, a subsequent decision on a primary trailer with
image_ok Set and copy_done Set returns `BOOT_SWAP_TYPE_NONE` for every
secondary trailer that is not inconsistent. -/
theorem revert_then_confirm_none (flash flash2 : trailer_map) (i : Nat)
    (p q s : boot_swap_state)
    (hfi : flash i = (p, s)) (hgi : flash2 i = (q, s))
    (hpm : p.magic = BOOT_MAGIC_GOOD) (hpt : p.swap_type = BOOT_SWAP_TYPE_TEST)
    (hpo : p.image_ok ≠ BOOT_FLAG_SET)
    (hsi : ¬ boot_swap_state_inconsistent s)
    (hsr : ¬ (s.magic = BOOT_MAGIC_GOOD ∧
              (s.swap_type = BOOT_SWAP_TYPE_TEST ∨
               s.swap_type = BOOT_SWAP_TYPE_PERM) ∧
              p.copy_done ≠ BOOT_FLAG_SET))
    (hqm : q.magic = BOOT_MAGIC_GOOD) (hqt : q.swap_type = BOOT_SWAP_TYPE_TEST)
    (hqc : q.copy_done = BOOT_FLAG_SET) (hqo : q.image_ok = BOOT_FLAG_SET) :
    boot_swap_type_multi flash i = BOOT_SWAP_TYPE_REVERT ∧
    boot_swap_type_multi flash2 i = BOOT_SWAP_TYPE_NONE := by
  unfold boot_swap_type_multi
  rw [hfi, hgi]
  exact ⟨decision_revert p s hpm hpt hpo hsi hsr,
         decision_none_steady q s hqm hqt hqc hqo hsi⟩

/-- Witness for (amended) claim C1: a primary {Good, Test, Unset, Unset}
next to a secondary with Good magic but swap_type None (no pending
request) decides Revert, and the re-confirmed state (primary
{Good, Test, Set, Set}) decides None. -/
theorem revert_then_confirm_none_witness :
    boot_swap_type_multi
      (fun _ => (⟨1, 2, 3, 3, 0⟩, ⟨1, 1, 3, 3, 0⟩)) 0 = BOOT_SWAP_TYPE_REVERT ∧
    boot_swap_type_multi
      (fun _ => (⟨1, 2, 1, 1, 0⟩, ⟨1, 1, 3, 3, 0⟩)) 0 = BOOT_SWAP_TYPE_NONE :=
  revert_then_confirm_none _ _ 0 ⟨1, 2, 3, 3, 0⟩ ⟨1, 2, 1, 1, 0⟩ ⟨1, 1, 3, 3, 0⟩
    rfl rfl rfl rfl (by decide) (by decide) (by decide) rfl rfl rfl rfl

/-- Claim C8: a trailer whose magic decodes to Good but whose `swap_info`
low nibble is not one of the defined swap-type values decodes without any
error — `boot_read_swap_state` is total and stores the nibble unchanged —
and the Decision Engine resolves every pair containing that trailer, on
either slot, to `BOOT_SWAP_TYPE_PANIC`. -/
theorem undefined_swap_type_panics (t : raw_trailer) (other : boot_swap_state)
    (hm : boot_magic_decode t.magic = BOOT_MAGIC_GOOD)
    (hu : ¬ boot_swap_type_defined (BOOT_GET_SWAP_TYPE t.swap_info)) :
    (boot_read_swap_state t).swap_type = BOOT_GET_SWAP_TYPE t.swap_info ∧
    boot_swap_decision (boot_read_swap_state t) other = BOOT_SWAP_TYPE_PANIC ∧
    boot_swap_decision other (boot_read_swap_state t) = BOOT_SWAP_TYPE_PANIC := by
  have hinc : boot_swap_state_inconsistent (boot_read_swap_state t) := by
    unfold boot_swap_state_inconsistent
    exact Or.inl ⟨hm, hu⟩
  refine ⟨rfl, ?_, ?_⟩
  · unfold boot_swap_decision
    rw [if_pos (Or.inl hinc)]
  · unfold boot_swap_decision
    rw [if_pos (Or.inr hinc)]

/-- Witness for claim C8: a trailer with the Good sentinel and the
undefined swap-type nibble 7 panics on either slot of a pair. -/
theorem undefined_swap_type_panics_witness :
    (boot_read_swap_state ⟨BOOT_IMG_MAGIC_BYTES, 7, 0xff, 0xff⟩).swap_type =
      BOOT_GET_SWAP_TYPE 7 ∧
    boot_swap_decision (boot_read_swap_state ⟨BOOT_IMG_MAGIC_BYTES, 7, 0xff, 0xff⟩)
      ⟨3, 3, 3, 3, 0⟩ = BOOT_SWAP_TYPE_PANIC ∧
    boot_swap_decision ⟨3, 3, 3, 3, 0⟩
      (boot_read_swap_state ⟨BOOT_IMG_MAGIC_BYTES, 7, 0xff, 0xff⟩) =
      BOOT_SWAP_TYPE_PANIC :=
  undefined_swap_type_panics ⟨BOOT_IMG_MAGIC_BYTES, 7, 0xff, 0xff⟩ ⟨3, 3, 3, 3, 0⟩
    (by decide) (by decide)

end Mcuboot
